import Mathlib

/-!
Shallow embedding of `src/core/src/services/dropbox/builder.rs` (opendal's
Dropbox service builder) and of the credential-cache behaviour the spec
describes for the parts of the service that live outside this file
(`DropboxSigner`'s refresh logic in `core.rs`).

Modelling conventions:
* Rust `Option<String>` fields become `Option String`.
* `chrono::DateTime<Utc>` timestamps become `Int` (abstract instants on a
  linear time line); `DateTime::<Utc>::MAX_UTC` becomes the fixed constant
  `MAX_UTC`, the maximum representable instant, and the chrono `Default`
  (the Unix epoch) becomes `0`.
* `HttpClient` carries no data relevant to the claims and is a one-value
  type; the fallibility of `HttpClient::new()` is made explicit by passing
  the outcome it would produce as the `newClient` argument of `build`.
* `normalize_root` lives outside the source file under study and is passed
  to `build` as an arbitrary function argument `nr`.
* `build(&mut self)` mutates the builder through `Option::take()`; the
  embedding makes this state passing explicit: `build` returns the result
  paired with the residual builder.
* `Arc`/`Mutex` wrappers are ownership/locking artifacts erased by the
  embedding; `DropboxCore.signer` holds the `DropboxSigner` value directly.
-/

/-- Equality of `Except` values is decidable when it is on both sides. -/
instance {ε α : Type} [DecidableEq ε] [DecidableEq α] : DecidableEq (Except ε α) :=
  fun a b =>
    match a, b with
    | .ok x, .ok y =>
        if h : x = y then .isTrue (by rw [h]) else .isFalse (by simp [h])
    | .error x, .error y =>
        if h : x = y then .isTrue (by rw [h]) else .isFalse (by simp [h])
    | .ok _, .error _ => .isFalse (by simp)
    | .error _, .ok _ => .isFalse (by simp)

namespace Dropbox

/-- The constant `chrono::DateTime::<Utc>::MAX_UTC`, the maximum representable instant.
The exact magnitude is irrelevant to the development; only its role as a
fixed upper bound of the representable time line matters. -/
def MAX_UTC : Int := 8210266876799999999999

/-- Error kinds used by the builder (`opendal::ErrorKind`); only
`ConfigInvalid` occurs in the file under study, `Unexpected` stands for
every other kind an external collaborator could produce. -/
inductive ErrorKind where
  | ConfigInvalid
  | Unexpected
deriving DecidableEq

/-- The `opendal::Error` type: a kind, a message, and the observability decorations
added by `with_operation` / `with_context`. -/
structure OError where
  kind : ErrorKind
  message : String
  operation : Option String
  context : List (String × String)
deriving DecidableEq

/-- Constructor `Error::new(kind, message)`. -/
def OError.new (kind : ErrorKind) (message : String) : OError :=
  ⟨kind, message, none, []⟩

/-- Method `Error::with_operation`. -/
def OError.with_operation (e : OError) (op : String) : OError :=
  { e with operation := some op }

/-- Method `Error::with_context`. -/
def OError.with_context (e : OError) (key value : String) : OError :=
  { e with context := e.context ++ [(key, value)] }

/-- The `opendal::Scheme` enumeration, restricted to the variant this service uses. -/
inductive Scheme where
  | Dropbox
deriving DecidableEq

/-- The string `Scheme::Dropbox` displays as when recorded in an error
context. -/
def Scheme.display : Scheme → String
  | .Dropbox => "dropbox"

/-- The HTTP transport object. Its contents are irrelevant to the claims;
it is modelled as a one-value type. -/
inductive HttpClient where
  | mk
deriving DecidableEq

/-- The `DropboxSigner` state as constructed by `builder.rs` (its declaration lives
in `core.rs`, outside the file under study; the fields and their `Default`
values — empty strings, and the Unix epoch `0` for the timestamp — are
pinned by the construction sites in `builder.rs` and Rust's derived
`Default`). -/
structure DropboxSigner where
  access_token : String := ""
  expires_in : Int := 0
  refresh_token : String := ""
  client_id : String := ""
  client_secret : String := ""
deriving DecidableEq

/-- The `DropboxCore` state as built by `builder.rs` (`Arc`/`Mutex` erased). -/
structure DropboxCore where
  root : String
  signer : DropboxSigner
  client : HttpClient
deriving DecidableEq

/-- The `DropboxBackend` accessor produced by a successful `build`. -/
structure DropboxBackend where
  core : DropboxCore
deriving DecidableEq

/-- The `DropboxBuilder` configuration bag. -/
structure DropboxBuilder where
  root : Option String := none
  access_token : Option String := none
  refresh_token : Option String := none
  client_id : Option String := none
  client_secret : Option String := none
  http_client : Option HttpClient := none
deriving DecidableEq

/-- Builder method `root` (named `set_root` here because the field already
uses the Rust name). -/
def DropboxBuilder.set_root (b : DropboxBuilder) (v : String) : DropboxBuilder :=
  { b with root := some v }

/-- Builder method `access_token`. -/
def DropboxBuilder.set_access_token (b : DropboxBuilder) (v : String) : DropboxBuilder :=
  { b with access_token := some v }

/-- Builder method `refresh_token`. -/
def DropboxBuilder.set_refresh_token (b : DropboxBuilder) (v : String) : DropboxBuilder :=
  { b with refresh_token := some v }

/-- Builder method `client_id`. -/
def DropboxBuilder.set_client_id (b : DropboxBuilder) (v : String) : DropboxBuilder :=
  { b with client_id := some v }

/-- Builder method `client_secret`. -/
def DropboxBuilder.set_client_secret (b : DropboxBuilder) (v : String) : DropboxBuilder :=
  { b with client_secret := some v }

/-- Builder method `http_client`. -/
def DropboxBuilder.set_http_client (b : DropboxBuilder) (v : HttpClient) : DropboxBuilder :=
  { b with http_client := some v }

/-- Constructor `DropboxBuilder::from_map`. The `HashMap<String, String>` is modelled
by its lookup function `String → Option String`. -/
def DropboxBuilder.from_map (map : String → Option String) : DropboxBuilder :=
  let builder : DropboxBuilder := {}
  let builder := match map "root" with
    | some v => builder.set_root v
    | none => builder
  let builder := match map "access_token" with
    | some v => builder.set_access_token v
    | none => builder
  let builder := match map "refresh_token" with
    | some v => builder.set_refresh_token v
    | none => builder
  let builder := match map "client_id" with
    | some v => builder.set_client_id v
    | none => builder
  let builder := match map "client_secret" with
    | some v => builder.set_client_secret v
    | none => builder
  builder

/-- Method `DropboxBuilder::build`. Here `nr` is the external `normalize_root`
function, `newClient` the outcome `HttpClient::new()` would produce if
invoked. The returned pair is (Rust return value, residual builder after
the `take()` mutations). -/
def DropboxBuilder.build (b : DropboxBuilder) (nr : String → String)
    (newClient : Except OError HttpClient) :
    Except OError DropboxBackend × DropboxBuilder :=
  let root := nr (b.root.getD "")
  let b1 := { b with root := none, http_client := none }
  let clientRes : Except OError HttpClient :=
    match b.http_client with
    | some c => .ok c
    | none =>
        match newClient with
        | .ok c => .ok c
        | .error err =>
            .error ((err.with_operation "Builder::build").with_context
              "service" (Scheme.display .Dropbox))
  match clientRes with
  | .error e => (.error e, b1)
  | .ok client =>
    let tok := b1.access_token
    let rtk := b1.refresh_token
    let b2 := { b1 with access_token := none, refresh_token := none }
    match tok, rtk with
    | some access_token, none =>
        (.ok { core := { root,
                         signer := { access_token, expires_in := MAX_UTC },
                         client } }, b2)
    | none, some refresh_token =>
        let cid := b2.client_id
        let b3 := { b2 with client_id := none }
        match cid with
        | none =>
            (.error ((OError.new .ConfigInvalid
                "client_id must be set when refresh_token is set").with_context
                "service" (Scheme.display .Dropbox)), b3)
        | some client_id =>
          let csec := b3.client_secret
          let b4 := { b3 with client_secret := none }
          match csec with
          | none =>
              (.error ((OError.new .ConfigInvalid
                  "client_secret must be set when refresh_token is set").with_context
                  "service" (Scheme.display .Dropbox)), b4)
          | some client_secret =>
              (.ok { core := { root,
                               signer := { refresh_token, client_id, client_secret },
                               client } }, b4)
    | some _, some _ =>
        (.error ((OError.new .ConfigInvalid
            "access_token and refresh_token can not be set at the same time").with_context
            "service" (Scheme.display .Dropbox)), b2)
    | none, none =>
        (.error ((OError.new .ConfigInvalid
            "access_token or refresh_token must be set").with_context
            "service" (Scheme.display .Dropbox)), b2)

/-- Modelled from the spec: the expiry half of the freshness check that
`get_valid_token()` performs on a cached signer — "`expires_at` is strictly
in the future". The `CredentialCache` implementation (`DropboxSigner`'s
refresh routine in `core.rs`) is not part of the source file under study. -/
def DropboxSigner.expiry_in_future (s : DropboxSigner) (now : Int) : Bool :=
  decide (now < s.expires_in)

/-- Modelled from the spec: the `Credential` tagged union of §3 — the
concrete `DropboxSigner` refresh state lives in `core.rs`, outside the
source file under study. `Fixed` never expires; `Refreshable` caches
`access_token`/`expires_at` only after the first successful refresh. -/
inductive Credential where
  | Fixed (access_token : String)
  | Refreshable (access_token : Option String) (expires_at : Option Int)
      (refresh_token : String) (client_id : String) (client_secret : String)
deriving DecidableEq

/-- Modelled from the spec: the success shape of the identity provider's
token-exchange response — a new bearer token and a validity duration. -/
structure TokenResponse where
  access_token : String
  expires_in_secs : Int
deriving DecidableEq

/-- Modelled from the spec: the `AuthError` family produced by
`get_valid_token()`; the underlying transport/parse cause is preserved. -/
inductive AuthError where
  | RefreshFailed (cause : String)
deriving DecidableEq

/-- Modelled from the spec: the freshness check of §4.2 step 2 — the cached
token is usable when it is present and `expires_at` is strictly later than
`now` plus the safety `margin`. -/
def Credential.is_fresh (margin now : Int) : Credential → Bool
  | .Fixed _ => true
  | .Refreshable tok expiry _ _ _ =>
      match tok, expiry with
      | some _, some e => decide (now + margin < e)
      | _, _ => false

/-- Modelled from the spec: `get_valid_token()` of the `CredentialCache`
(§4.2), whose implementation is not part of the source file under study.
The transport round-trip is modelled by its outcome `transport` (a new
token plus duration, or a failure cause); the state passing of the guarded
credential is explicit: the call returns the result paired with the
credential state after the call. -/
def Credential.get_valid_token (transport : Except String TokenResponse)
    (margin now : Int) : Credential → Except AuthError String × Credential
  | .Fixed t => (.ok t, .Fixed t)
  | .Refreshable tok expiry rt cid csec =>
      if Credential.is_fresh margin now (.Refreshable tok expiry rt cid csec) then
        (.ok (tok.getD ""), .Refreshable tok expiry rt cid csec)
      else
        match transport with
        | .ok resp =>
            (.ok resp.access_token,
             .Refreshable (some resp.access_token) (some (now + resp.expires_in_secs))
               rt cid csec)
        | .error cause =>
            (.error (.RefreshFailed cause), .Refreshable tok expiry rt cid csec)

/-- Claim C1: whenever both `access_token` and `refresh_token` are present,
`build` fails with the `ConfigInvalid` error whose message is exactly
"access_token and refresh_token can not be set at the same time",
regardless of the remaining fields (`client_id`, `client_secret`, `root`,
`http_client`). -/
theorem build_conflicting_tokens_fails (nr : String → String) (c : HttpClient)
    (b : DropboxBuilder) (tok rtk : String)
    (ha : b.access_token = some tok) (hr : b.refresh_token = some rtk) :
    (b.build nr (.ok c)).1 =
      .error ((OError.new .ConfigInvalid
        "access_token and refresh_token can not be set at the same time").with_context
        "service" (Scheme.display .Dropbox)) := by
  rcases b with ⟨r, a, t, cid, csec, hc⟩
  simp only at ha hr
  subst ha hr
  cases hc <;> rfl

/-- Witness for C1 at a concrete configuration with `client_id` and
`client_secret` also set. -/
theorem build_conflicting_tokens_fails_witness :
    (DropboxBuilder.build ⟨none, some "a", some "r", some "i", some "s", none⟩
        id (.ok .mk)).1 =
      .error ((OError.new .ConfigInvalid
        "access_token and refresh_token can not be set at the same time").with_context
        "service" (Scheme.display .Dropbox)) :=
  build_conflicting_tokens_fails id .mk _ "a" "r" rfl rfl

/-- Claim C2: whenever neither `access_token` nor `refresh_token` is
present, `build` fails with the `ConfigInvalid` error whose message is
exactly "access_token or refresh_token must be set". -/
theorem build_missing_tokens_fails (nr : String → String) (c : HttpClient)
    (b : DropboxBuilder)
    (ha : b.access_token = none) (hr : b.refresh_token = none) :
    (b.build nr (.ok c)).1 =
      .error ((OError.new .ConfigInvalid
        "access_token or refresh_token must be set").with_context
        "service" (Scheme.display .Dropbox)) := by
  rcases b with ⟨r, a, t, cid, csec, hc⟩
  simp only at ha hr
  subst ha hr
  cases hc <;> rfl

/-- Witness for C2 at the empty configuration. -/
theorem build_missing_tokens_fails_witness :
    (DropboxBuilder.build ⟨none, none, none, none, none, none⟩ id (.ok .mk)).1 =
      .error ((OError.new .ConfigInvalid
        "access_token or refresh_token must be set").with_context
        "service" (Scheme.display .Dropbox)) :=
  build_missing_tokens_fails id .mk _ rfl rfl

/-- Claim C3: with only `refresh_token` set, `build` checks `client_id`
before `client_secret`: an absent `client_id` yields exactly the
"client_id must be set when refresh_token is set" error whatever
`client_secret` holds (including absent), and a present `client_id` with
an absent `client_secret` yields exactly the "client_secret must be set
when refresh_token is set" error. -/
theorem build_refresh_checks_client_id_then_secret (nr : String → String)
    (c : HttpClient) (b : DropboxBuilder) (rtk : String)
    (ha : b.access_token = none) (hr : b.refresh_token = some rtk) :
    (b.client_id = none →
      (b.build nr (.ok c)).1 =
        .error ((OError.new .ConfigInvalid
          "client_id must be set when refresh_token is set").with_context
          "service" (Scheme.display .Dropbox))) ∧
    (∀ cid, b.client_id = some cid → b.client_secret = none →
      (b.build nr (.ok c)).1 =
        .error ((OError.new .ConfigInvalid
          "client_secret must be set when refresh_token is set").with_context
          "service" (Scheme.display .Dropbox))) := by
  rcases b with ⟨r, a, t, cid, csec, hc⟩
  simp only at ha hr
  subst ha hr
  constructor
  · intro hcid
    simp only at hcid
    subst hcid
    cases hc <;> rfl
  · intro v hcid hcsec
    simp only at hcid hcsec
    subst hcid hcsec
    cases hc <;> rfl

/-- Witness for C3: `client_id` absent together with an absent
`client_secret` reports the `client_id` error; `client_id` present with
`client_secret` absent reports the `client_secret` error. -/
theorem build_refresh_checks_client_id_then_secret_witness :
    (DropboxBuilder.build ⟨none, none, some "r", none, none, none⟩ id (.ok .mk)).1 =
      .error ((OError.new .ConfigInvalid
        "client_id must be set when refresh_token is set").with_context
        "service" (Scheme.display .Dropbox)) ∧
    (DropboxBuilder.build ⟨none, none, some "r", some "i", none, none⟩ id (.ok .mk)).1 =
      .error ((OError.new .ConfigInvalid
        "client_secret must be set when refresh_token is set").with_context
        "service" (Scheme.display .Dropbox)) :=
  ⟨(build_refresh_checks_client_id_then_secret id .mk _ "r" rfl rfl).1 rfl,
   (build_refresh_checks_client_id_then_secret id .mk _ "r" rfl rfl).2 "i" rfl rfl⟩

/-- Claim C4: with only `access_token` set, `build` succeeds with the
fixed signer holding exactly that token and `expires_in = MAX_UTC` (every
other signer field at its default), and the expiry freshness check passes
at every representable instant strictly below `MAX_UTC` — i.e. at any real
time. -/
theorem build_access_token_only_fixed_signer (nr : String → String)
    (c : HttpClient) (b : DropboxBuilder) (tok : String)
    (ha : b.access_token = some tok) (hr : b.refresh_token = none) :
    (b.build nr (.ok c)).1 =
      .ok { core := { root := nr (b.root.getD ""),
                      signer := { access_token := tok, expires_in := MAX_UTC,
                                  refresh_token := "", client_id := "",
                                  client_secret := "" },
                      client := b.http_client.getD c } } ∧
    (∀ now : Int, now < MAX_UTC →
      DropboxSigner.expiry_in_future
        { access_token := tok, expires_in := MAX_UTC } now = true) := by
  rcases b with ⟨r, a, t, cid, csec, hc⟩
  simp only at ha hr
  subst ha hr
  refine ⟨?_, ?_⟩
  · cases hc <;> rfl
  · intro now hlt
    exact decide_eq_true hlt

/-- Witness for C4 at a concrete configuration. -/
theorem build_access_token_only_fixed_signer_witness :
    (DropboxBuilder.build ⟨some "/w", some "T", none, none, none, none⟩
        id (.ok .mk)).1 =
      .ok { core := { root := "/w",
                      signer := { access_token := "T", expires_in := MAX_UTC,
                                  refresh_token := "", client_id := "",
                                  client_secret := "" },
                      client := .mk } } ∧
    DropboxSigner.expiry_in_future
      { access_token := "T", expires_in := MAX_UTC } 1767225600 = true :=
  ⟨(build_access_token_only_fixed_signer id .mk
      ⟨some "/w", some "T", none, none, none, none⟩ "T" rfl rfl).1,
   (build_access_token_only_fixed_signer id .mk
      ⟨some "/w", some "T", none, none, none, none⟩ "T" rfl rfl).2 1767225600
     (by decide)⟩

/-- Claim C5: with `refresh_token`, `client_id` and `client_secret` all
set and no `access_token`, `build` succeeds with the refreshable signer
storing exactly those three values, the cached token absent (the empty
string, the signer's default) and the expiry absent (the epoch default
`0`, never in the future at any positive instant) until the first
refresh. -/
theorem build_refresh_triple_refreshable_signer (nr : String → String)
    (c : HttpClient) (b : DropboxBuilder) (rtk cid csec : String)
    (ha : b.access_token = none) (hr : b.refresh_token = some rtk)
    (hi : b.client_id = some cid) (hs : b.client_secret = some csec) :
    (b.build nr (.ok c)).1 =
      .ok { core := { root := nr (b.root.getD ""),
                      signer := { access_token := "", expires_in := 0,
                                  refresh_token := rtk, client_id := cid,
                                  client_secret := csec },
                      client := b.http_client.getD c } } ∧
    (∀ now : Int, 0 < now →
      DropboxSigner.expiry_in_future
        { access_token := "", refresh_token := rtk, client_id := cid,
          client_secret := csec } now = false) := by
  rcases b with ⟨r, a, t, ci, cs, hc⟩
  simp only at ha hr hi hs
  subst ha hr hi hs
  refine ⟨?_, ?_⟩
  · cases hc <;> rfl
  · intro now hpos
    have hnot : ¬ (now < (0 : Int)) := by omega
    exact decide_eq_false hnot

/-- Witness for C5 at a concrete configuration. -/
theorem build_refresh_triple_refreshable_signer_witness :
    (DropboxBuilder.build ⟨none, none, some "R", some "I", some "S", none⟩
        id (.ok .mk)).1 =
      .ok { core := { root := "",
                      signer := { access_token := "", expires_in := 0,
                                  refresh_token := "R", client_id := "I",
                                  client_secret := "S" },
                      client := .mk } } ∧
    DropboxSigner.expiry_in_future
      { access_token := "", refresh_token := "R", client_id := "I",
        client_secret := "S" } 1767225600 = false :=
  ⟨(build_refresh_triple_refreshable_signer id .mk
      ⟨none, none, some "R", some "I", some "S", none⟩ "R" "I" "S" rfl rfl rfl rfl).1,
   (build_refresh_triple_refreshable_signer id .mk
      ⟨none, none, some "R", some "I", some "S", none⟩ "R" "I" "S" rfl rfl rfl rfl).2
     1767225600 (by decide)⟩

/-- Counterexample to claim C6 as stated: invoking `build` does not leave
the configuration unchanged — on a configuration holding only
`access_token = "T"`, the residual builder has had its `access_token`
taken, so it differs from the input. -/
theorem build_changes_builder_counterexample :
    (DropboxBuilder.build ⟨none, some "T", none, none, none, none⟩
        id (.ok .mk)).2 ≠
      ⟨none, some "T", none, none, none, none⟩ := by
  decide

/-- Claim C6 (amended): `build` is deterministic — equal configuration
values yield equal results, result and residual builder alike — and it has
no effects beyond its returned pair; but it consumes rather than preserves
the configuration: in the residual builder the `access_token` and
`refresh_token` fields are always cleared. -/
theorem build_deterministic_but_consuming (nr : String → String)
    (c : HttpClient) (b₁ b₂ : DropboxBuilder) (h : b₁ = b₂) :
    b₁.build nr (.ok c) = b₂.build nr (.ok c) ∧
    (b₁.build nr (.ok c)).2.access_token = none ∧
    (b₁.build nr (.ok c)).2.refresh_token = none := by
  subst h
  refine ⟨rfl, ?_, ?_⟩ <;>
    · rcases b₁ with ⟨r, a, t, cid, csec, hc⟩
      cases hc <;> cases a <;> cases t <;> cases cid <;> cases csec <;> rfl

/-- Witness for C6 (amended) at a concrete configuration. -/
theorem build_deterministic_but_consuming_witness :
    DropboxBuilder.build ⟨none, some "T", none, none, none, none⟩ id (.ok .mk) =
      DropboxBuilder.build ⟨none, some "T", none, none, none, none⟩ id (.ok .mk) ∧
    (DropboxBuilder.build ⟨none, some "T", none, none, none, none⟩
        id (.ok .mk)).2.access_token = none ∧
    (DropboxBuilder.build ⟨none, some "T", none, none, none, none⟩
        id (.ok .mk)).2.refresh_token = none :=
  build_deterministic_but_consuming id .mk
    ⟨none, some "T", none, none, none, none⟩
    ⟨none, some "T", none, none, none, none⟩ rfl

/-- Claim C9: `from_map` reads only the recognized option names `root`,
`access_token`, `refresh_token`, `client_id`, `client_secret`; any two
mappings agreeing on those five keys — in particular, mappings differing
only by entries under unrecognized keys — produce the same builder. -/
theorem from_map_reads_only_recognized_keys (m₁ m₂ : String → Option String)
    (h1 : m₁ "root" = m₂ "root")
    (h2 : m₁ "access_token" = m₂ "access_token")
    (h3 : m₁ "refresh_token" = m₂ "refresh_token")
    (h4 : m₁ "client_id" = m₂ "client_id")
    (h5 : m₁ "client_secret" = m₂ "client_secret") :
    DropboxBuilder.from_map m₁ = DropboxBuilder.from_map m₂ := by
  simp only [DropboxBuilder.from_map, h1, h2, h3, h4, h5]

/-- Witness for C9: adding an entry under the unrecognized key "endpoint"
leaves the resulting builder unchanged. -/
theorem from_map_reads_only_recognized_keys_witness :
    DropboxBuilder.from_map
        (fun k => if k = "endpoint" then some "x" else none) =
      DropboxBuilder.from_map (fun _ => none) :=
  from_map_reads_only_recognized_keys
    (fun k => if k = "endpoint" then some "x" else none) (fun _ => none)
    (by decide) (by decide) (by decide) (by decide) (by decide)

/-- Counterexample to claim C10 as stated: `client_secret` is not always
taken on the refresh-token path — when `client_id` is absent, `build`
fails before reaching `client_secret.take()`, so a set `client_secret`
survives in the residual builder. -/
theorem build_client_secret_kept_counterexample :
    ¬ ((DropboxBuilder.build ⟨none, none, some "r", none, some "s", none⟩
        id (.ok .mk)).2.client_secret = none) := by
  decide

/-- Claim C10 (amended): `build` always takes `root`, `http_client`,
`access_token` and `refresh_token`; on the refresh-token path it takes
`client_id`, and additionally `client_secret` once `client_id` is present;
consequently a second `build` on a builder whose first call succeeded
fails with the "access_token or refresh_token must be set" error. -/
theorem build_consumes_state (nr : String → String) (c : HttpClient)
    (b : DropboxBuilder) :
    ((b.build nr (.ok c)).2.root = none ∧
     (b.build nr (.ok c)).2.http_client = none ∧
     (b.build nr (.ok c)).2.access_token = none ∧
     (b.build nr (.ok c)).2.refresh_token = none) ∧
    (b.access_token = none → b.refresh_token ≠ none →
      (b.build nr (.ok c)).2.client_id = none) ∧
    (b.access_token = none → b.refresh_token ≠ none → b.client_id ≠ none →
      (b.build nr (.ok c)).2.client_secret = none) ∧
    ((b.build nr (.ok c)).1.isOk = true →
      ((b.build nr (.ok c)).2.build nr (.ok c)).1 =
        .error ((OError.new .ConfigInvalid
          "access_token or refresh_token must be set").with_context
          "service" (Scheme.display .Dropbox))) := by
  rcases b with ⟨r, a, t, cid, csec, hc⟩
  cases hc <;> cases a <;> cases t <;> cases cid <;> cases csec <;>
    simp [DropboxBuilder.build, Except.isOk, Except.toBool]

/-- Witness for C10 (amended): the three conditional parts at a concrete
refresh-token configuration whose first `build` succeeds. -/
theorem build_consumes_state_witness :
    (((DropboxBuilder.build ⟨none, none, some "R", some "I", some "S", none⟩
          id (.ok .mk)).2.root = none ∧
      (DropboxBuilder.build ⟨none, none, some "R", some "I", some "S", none⟩
          id (.ok .mk)).2.http_client = none ∧
      (DropboxBuilder.build ⟨none, none, some "R", some "I", some "S", none⟩
          id (.ok .mk)).2.access_token = none ∧
      (DropboxBuilder.build ⟨none, none, some "R", some "I", some "S", none⟩
          id (.ok .mk)).2.refresh_token = none) ∧
     (DropboxBuilder.build ⟨none, none, some "R", some "I", some "S", none⟩
          id (.ok .mk)).2.client_id = none ∧
     (DropboxBuilder.build ⟨none, none, some "R", some "I", some "S", none⟩
          id (.ok .mk)).2.client_secret = none ∧
     ((DropboxBuilder.build ⟨none, none, some "R", some "I", some "S", none⟩
          id (.ok .mk)).2.build id (.ok .mk)).1 =
       .error ((OError.new .ConfigInvalid
         "access_token or refresh_token must be set").with_context
         "service" (Scheme.display .Dropbox))) :=
  have h := build_consumes_state id .mk
    ⟨none, none, some "R", some "I", some "S", none⟩
  ⟨h.1,
   h.2.1 rfl (by decide),
   h.2.2.1 rfl (by decide) (by decide),
   h.2.2.2 (by decide)⟩

/-- Claim C7: on a stale `Refreshable` credential, a failed refresh
round-trip makes `get_valid_token` return `AuthError.RefreshFailed` with
the underlying cause while leaving the credential state exactly as it was
(no partial update); a subsequent call at any later instant performs a
fresh refresh — it returns the token produced by its own transport call
and installs it, rather than returning a cached value. -/
theorem get_valid_token_refresh_failure_no_partial_update (cause : String)
    (tok : Option String) (expiry : Option Int) (rtk cid csec : String)
    (margin now : Int)
    (hstale : Credential.is_fresh margin now
      (.Refreshable tok expiry rtk cid csec) = false) :
    Credential.get_valid_token (.error cause) margin now
        (.Refreshable tok expiry rtk cid csec) =
      (.error (.RefreshFailed cause), .Refreshable tok expiry rtk cid csec) ∧
    (∀ (later : Int) (resp : TokenResponse), now ≤ later →
      Credential.get_valid_token (.ok resp) margin later
          (.Refreshable tok expiry rtk cid csec) =
        (.ok resp.access_token,
         .Refreshable (some resp.access_token)
           (some (later + resp.expires_in_secs)) rtk cid csec)) := by
  have hstale2 : ∀ later : Int, now ≤ later →
      Credential.is_fresh margin later
        (.Refreshable tok expiry rtk cid csec) = false := by
    intro later hle
    cases tok with
    | none => simp [Credential.is_fresh]
    | some s =>
      cases expiry with
      | none => simp [Credential.is_fresh]
      | some e =>
        simp only [Credential.is_fresh, decide_eq_false_iff_not, not_lt] at hstale ⊢
        omega
  refine ⟨?_, ?_⟩
  · simp [Credential.get_valid_token, hstale]
  · intro later resp hle
    simp [Credential.get_valid_token, hstale2 later hle]

/-- Witness for C7: a concrete empty-cache `Refreshable` credential, a
failing transport, then a succeeding one at a later instant. -/
theorem get_valid_token_refresh_failure_no_partial_update_witness :
    Credential.get_valid_token (.error "io") 60 0
        (.Refreshable none none "R" "I" "S") =
      (.error (.RefreshFailed "io"), .Refreshable none none "R" "I" "S") ∧
    Credential.get_valid_token (.ok ⟨"fresh", 14400⟩) 60 5
        (.Refreshable none none "R" "I" "S") =
      (.ok "fresh", .Refreshable (some "fresh") (some (5 + 14400)) "R" "I" "S") :=
  have h := get_valid_token_refresh_failure_no_partial_update "io"
    none none "R" "I" "S" 60 0 (by decide)
  ⟨h.1, h.2 5 ⟨"fresh", 14400⟩ (by decide)⟩

end Dropbox
